import Mathlib

/-!
Shallow embedding of the numalign topology core: PCI device discovery
(pkg/pcidev), NUMA distance matrix construction (pkg/topologyinfo/numa/
distances) and the synthetic sysfs tree builder (pkg/fakesysfs).

Filesystem reads are represented by their results: every syscall the Go
code performs on a device directory or a node distance file appears as an
explicit input field (`Option String` for a read that may fail, a
three-way stat result mirroring the `err == nil / os.IsNotExist / other`
branching). Go `(value, error)` pairs become `Except` values, or explicit
pairs where the Go caller uses the value even on error. A Go slice index
that may be out of range is performed through an `Option`-returning
accessor: a `none` result models the runtime index-out-of-range panic.
-/

set_option autoImplicit false
set_option maxRecDepth 4000

/-- ASCII whitespace recognizer used to embed Go `strings.TrimSpace`. -/
def isSpaceChar (c : Char) : Bool :=
  c = ' ' ∨ c = '\t' ∨ c = '\n' ∨ c = '\r'

/-- Embeds Go `strings.TrimSpace` (on the ASCII contents that sysfs files hold). -/
def trimSpace (s : String) : String :=
  String.mk (((s.toList.dropWhile isSpaceChar).reverse.dropWhile isSpaceChar).reverse)

/-- Splits a character list at every space, keeping empty fields. -/
def splitSpaceChars (cs : List Char) : List (List Char) :=
  cs.foldr
    (fun c acc =>
      if c = ' ' then [] :: acc
      else
        match acc with
        | a :: rest => (c :: a) :: rest
        | [] => [[c]])
    [[]]

/-- Embeds Go `strings.Split(data, " ")`: split on every single space,
empty fields are kept, and the empty string yields one empty field. -/
def splitOnSpace (s : String) : List String :=
  (splitSpaceChars s.toList).map String.mk

/-- Value of a decimal or hexadecimal digit character. -/
def charVal (c : Char) : Option Nat :=
  if '0' ≤ c ∧ c ≤ '9' then some (c.toNat - '0'.toNat)
  else if 'a' ≤ c ∧ c ≤ 'f' then some (c.toNat - 'a'.toNat + 10)
  else if 'A' ≤ c ∧ c ≤ 'F' then some (c.toNat - 'A'.toNat + 10)
  else none

/-- Reads a nonempty digit string in the given base; `none` on an empty
string or any character that is not a digit of the base. -/
def digitsToNat (b : Nat) (cs : List Char) : Option Nat :=
  match cs with
  | [] => none
  | _ =>
    cs.foldl
      (fun acc c =>
        match acc, charVal c with
        | some a, some d => if d < b then some (a * b + d) else none
        | _, _ => none)
      (some 0)

/-- Strips an optional sign, reporting whether the number is negated. -/
def parseSign : List Char → Bool × List Char
  | '+' :: rest => (false, rest)
  | '-' :: rest => (true, rest)
  | cs => (false, cs)

/-- Embeds Go `strconv.Atoi`: optional sign followed by a nonempty run of
decimal digits (machine-width overflow is not modelled; the sysfs values
involved are far below it). -/
def atoi (s : String) : Option Int :=
  let (neg, cs) := parseSign s.toList
  (digitsToNat 10 cs).map (fun n => if neg then -(n : Int) else (n : Int))

/-- Embeds Go `strconv.ParseInt(s, 0, 64)`: base inferred from the prefix
(`0x`/`0X` hex, `0b`/`0B` binary, `0o`/`0O` or a leading `0` octal, else
decimal), after an optional sign. -/
def parseBase0 (s : String) : Option Int :=
  let (neg, cs) := parseSign s.toList
  let mag : Option Nat :=
    match cs with
    | '0' :: 'x' :: rest => digitsToNat 16 rest
    | '0' :: 'X' :: rest => digitsToNat 16 rest
    | '0' :: 'b' :: rest => digitsToNat 2 rest
    | '0' :: 'B' :: rest => digitsToNat 2 rest
    | '0' :: 'o' :: rest => digitsToNat 8 rest
    | '0' :: 'O' :: rest => digitsToNat 8 rest
    | '0' :: [] => some 0
    | '0' :: rest => digitsToNat 8 rest
    | other => digitsToNat 10 other
  mag.map (fun n => if neg then -(n : Int) else (n : Int))

/-- Embeds Go `path/filepath.Base`: strip trailing slashes, take everything
after the last remaining slash; `"."` for the empty path, `"/"` when the
path is all slashes. -/
def filepathBase (path : String) : String :=
  if path = "" then "."
  else
    let cs := (path.toList.reverse.dropWhile (fun c => c = '/')).reverse
    let last := (cs.reverse.takeWhile (fun c => c ≠ '/')).reverse
    if last = [] then "/" else String.mk last

/-- Embeds Go `path/filepath.Join` for the shapes this code joins
(non-empty components, at most one slash at the seam). -/
def joinPath (a b : String) : String :=
  if a.toList.getLast? = some '/' then a ++ b else a ++ "/" ++ b

/-- Error values surfaced by the embedded Go code. -/
inductive GoErr where
  /-- An I/O failure from `ioutil.ReadFile` or a collaborator read. -/
  | ioErr
  /-- An `os.Stat` failure that is not `IsNotExist`. -/
  | statErr
  /-- A `strconv` failure on the given (trimmed) input. -/
  | parseErr (input : String)
  /-- The distance-vector length check: found and expected counts. -/
  | countMismatch (found expected : Nat)
  /-- A `BetweenNodes` query against a node ID outside the online set. -/
  | unknownNode (nodeID : Int)
deriving DecidableEq, Repr

/-- Embeds `readInt` of pkg/pcidev: `ReadFile` then `Atoi` on the trimmed
content; Go returns the pair `(0, err)` on any failure and callers use the
integer even then, so the pair is kept. -/
def readInt (content : Option String) : Int × Option GoErr :=
  match content with
  | none => (0, some .ioErr)
  | some s =>
    match atoi (trimSpace s) with
    | some v => (v, none)
    | none => (0, some (.parseErr (trimSpace s)))

/-- Embeds `readHexInt64` of pkg/pcidev: `ReadFile` then
`strconv.ParseInt(trimmed, 0, 64)`. -/
def readHexInt64 (content : Option String) : Except GoErr Int :=
  match content with
  | none => .error .ioErr
  | some s =>
    match parseBase0 (trimSpace s) with
    | some v => .ok v
    | none => .error (.parseErr (trimSpace s))

/-- Result of an `os.Stat` call, mirroring the three-way branching
`err == nil` / `os.IsNotExist(err)` / other error in `NewPCIDevices`. -/
inductive StatResult where
  | present
  | absent
  | failed
deriving DecidableEq, Repr

/-- One entry of `bus/pci/devices/`, carrying the result of every syscall
`NewPCIDevices` performs on that directory. -/
structure DevDir where
  name : String
  /-- `os.Stat` on the `sriov_numvfs` file. -/
  numvfsStat : StatResult
  /-- `ioutil.ReadFile` on the `sriov_numvfs` file. -/
  numvfsContent : Option String
  /-- `os.Stat` on the `physfn` entry. -/
  physfnStat : StatResult
  /-- `os.Readlink` on the `physfn` entry (`none`: the readlink failed). -/
  physfnLink : Option String
  /-- `ioutil.ReadFile` on the `numa_node` file. -/
  numaNodeContent : Option String
  /-- `ioutil.ReadFile` on the `class` file. -/
  classContent : Option String
  /-- `ioutil.ReadFile` on the `vendor` file. -/
  vendorContent : Option String
  /-- `ioutil.ReadFile` on the `device` file. -/
  deviceContent : Option String
deriving DecidableEq, Repr

/-- Embeds the struct `SRIOVDeviceInfo` of pkg/pcidev. -/
structure SRIOVDeviceInfo where
  IsPhysFn : Bool
  NumVFS : Int
  IsVFn : Bool
  ParentFn : String
  address : String
  numaNode : Int
  devClass : Int
  vendor : Int
  device : Int
  sysfsPath : String
deriving DecidableEq, Repr

/-- Embeds the struct `PCIDevices` of pkg/pcidev. -/
structure PCIDevices where
  Items : List SRIOVDeviceInfo
deriving DecidableEq, Repr

/-- Subpath constant `PathBusPCIDevices` of pkg/pcidev. -/
def PathBusPCIDevices : String := "bus/pci/devices/"

/-- The `sriov_numvfs` branch of the `NewPCIDevices` loop body: stat hit
means physical function, the VF count is read with the error discarded
(`numVfs, _ = readInt(...)`); a stat failure other than not-exist aborts. -/
def numvfsFields : StatResult → Option String → Except GoErr (Bool × Int)
  | .present, content => .ok (true, (readInt content).1)
  | .absent, _ => .ok (false, 0)
  | .failed, _ => .error .statErr

/-- The `physfn` branch of the `NewPCIDevices` loop body: stat hit means
virtual function; the parent address is the base name of the link target
when the readlink succeeds and stays `""` when it fails; a stat failure
other than not-exist aborts. -/
def physfnFields : StatResult → Option String → Except GoErr (Bool × String)
  | .present, link =>
    .ok (true, match link with
               | some dest => filepathBase dest
               | none => "")
  | .absent, _ => .ok (false, "")
  | .failed, _ => .error .statErr

/-- Embeds one iteration of the `NewPCIDevices` loop over the entries of
`bus/pci/devices/`. The error of `readInt` on `numa_node` is bound but
never tested in the Go code (the variable is overwritten by the `class`
read before any check), so only the integer part is used here. -/
def processEntry (sysfsPath : String) (entry : DevDir) : Except GoErr SRIOVDeviceInfo :=
  let devPath := joinPath sysfsPath entry.name
  match numvfsFields entry.numvfsStat entry.numvfsContent with
  | .error e => .error e
  | .ok (isPhysFn, numVfs) =>
    match physfnFields entry.physfnStat entry.physfnLink with
    | .error e => .error e
    | .ok (isVFn, parentFn) =>
      let nodeNum := (readInt entry.numaNodeContent).1
      match readHexInt64 entry.classContent with
      | .error e => .error e
      | .ok devClass =>
        match readHexInt64 entry.vendorContent with
        | .error e => .error e
        | .ok vendor =>
          match readHexInt64 entry.deviceContent with
          | .error e => .error e
          | .ok device =>
            .ok { IsPhysFn := isPhysFn
                  NumVFS := numVfs
                  IsVFn := isVFn
                  ParentFn := parentFn
                  address := entry.name
                  numaNode := nodeNum
                  devClass := Int.fdiv devClass 256
                  vendor := vendor
                  device := device
                  sysfsPath := devPath }

/-- Embeds `NewPCIDevices` of pkg/pcidev. The directory listing of
`bus/pci/devices/` is an input (`none`: `ioutil.ReadDir` failed); the loop
with early return over the entries is `mapM` over `Except`. -/
def NewPCIDevices (sysfs : String) (listing : Option (List DevDir)) : Except GoErr PCIDevices :=
  let sysfsPath := joinPath sysfs PathBusPCIDevices
  match listing with
  | none => .error .ioErr
  | some entries =>
    match entries.mapM (processEntry sysfsPath) with
    | .error e => .error e
    | .ok devs => .ok ⟨devs⟩

/-- Embeds `PCIDevices.PerNUMA`: the Go map from node ID to device list is
a function, empty where never assigned; each device is appended to the
group of its own NUMA node in item order. -/
def PCIDevices.PerNUMA (pd : PCIDevices) : Int → List SRIOVDeviceInfo :=
  pd.Items.foldl
    (fun m devInfo =>
      fun n => if n = devInfo.numaNode then m n ++ [devInfo] else m n)
    (fun _ => [])

/-- Embeds the struct `nodeDistances` of the distances package. -/
structure nodeDistances where
  values : List Int
deriving DecidableEq, Repr

/-- Embeds the struct `Distances`: the Go `map[int]bool` of online nodes
(only ever set to `true`) is its key list, membership standing for lookup
success. -/
structure Distances where
  onlineNodes : List Int
  byNode : List nodeDistances
deriving DecidableEq, Repr

/-- The value-parsing loop of `nodeDistancesFromString`: `strconv.Atoi` on
each token, aborting on the first failure. -/
def parseDistValues : List String → Except GoErr (List Int)
  | [] => .ok []
  | d :: rest =>
    match atoi d with
    | none => .error (.parseErr d)
    | some v =>
      match parseDistValues rest with
      | .error e => .error e
      | .ok vs => .ok (v :: vs)

/-- Embeds `nodeDistancesFromString`: split on single spaces, require
exactly `numaNodes` fields, then parse each field as a decimal integer. -/
def nodeDistancesFromString (numaNodes : Nat) (data : String) : Except GoErr nodeDistances :=
  let dists := splitOnSpace data
  if dists.length ≠ numaNodes then
    .error (.countMismatch dists.length numaNodes)
  else
    match parseDistValues dists with
    | .error e => .error e
    | .ok vs => .ok ⟨vs⟩

/-- Go slice indexing with an `int` index: `none` models the runtime
index-out-of-range panic (negative or too-large index). -/
def idxGet {α : Type} (l : List α) (i : Int) : Option α :=
  if i < 0 then none else l.get? i.toNat

/-- Embeds `Distances.BetweenNodes`. The outer `Option` is the panic
layer: `none` is an index-out-of-range panic on `d.byNode[from]` or on
`.values[to]`; `some` is a normal Go return, error or value. -/
def Distances.BetweenNodes (d : Distances) (nFrom nTo : Int) : Option (Except GoErr Int) :=
  if nFrom ∈ d.onlineNodes then
    if nTo ∈ d.onlineNodes then
      match idxGet d.byNode nFrom with
      | none => none
      | some nd =>
        match idxGet nd.values nTo with
        | none => none
        | some v => some (.ok v)
    else some (.error (.unknownNode nTo))
  else some (.error (.unknownNode nFrom))

/-- Recognizes a `BetweenNodes` outcome that is a normally returned error
value (not a panic, not a distance). -/
def resIsError : Option (Except GoErr Int) → Bool
  | some (.error _) => true
  | _ => false

/-- Modelled from the spec: the NUMA Node Source collaborator
(`numa.NewNodesFromSysFS` and `sysfs.New(...).ForNode(id).ReadFile`,
neither under src/). The spec gives its interface as "list online NUMA
node IDs, given a root path → ordered set of integers" and "read the
textual content of a single pseudo-file, given a node ID and root path →
string", with no further guarantee on the ID values; it is represented as
the ordered online-ID list plus the per-node `distance` read results. -/
structure NodeSource where
  online : List Int
  readDistanceFile : Int → Option String

/-- The per-node loop of `NewDistancesFromSysfs`: record the node as
online, read its `distance` file, parse and validate the vector, append
it; abort on the first failure. -/
def distLoop (numaNodes : Nat) (readFile : Int → Option String) :
    List Int → Distances → Except GoErr Distances
  | [], acc => .ok acc
  | nodeID :: rest, acc =>
    let acc1 : Distances := { acc with onlineNodes := acc.onlineNodes ++ [nodeID] }
    match readFile nodeID with
    | none => .error .ioErr
    | some distData =>
      match nodeDistancesFromString numaNodes distData with
      | .error e => .error e
      | .ok nodeDist =>
        distLoop numaNodes readFile rest { acc1 with byNode := acc1.byNode ++ [nodeDist] }

/-- Embeds `NewDistancesFromSysfs`, the node source being the modelled
collaborator. -/
def NewDistancesFromSysfs (ns : NodeSource) : Except GoErr Distances :=
  distLoop ns.online.length ns.readDistanceFile ns.online ⟨[], []⟩

/-- Embeds the recursive `tree` node of pkg/fakesysfs: a name, the
(possibly nil) attribute map, and the ordered child list. -/
inductive GoTree where
  | node (name : String) (attrs : Option (List (String × String))) (items : List GoTree)

/-- Embeds `NewTree`: a fresh leaf with an empty item list. -/
def NewTree (name : String) (attrs : Option (List (String × String))) : GoTree :=
  .node name attrs []

/-- Mutation of the node at handle `h` inside the root tree: append a new
child there and return the updated root together with the handle of the
appended child. Handles are child-index paths, standing for the Go
pointers into the shared mutable tree. -/
def addAt (name : String) (attrs : Option (List (String × String))) :
    List Nat → GoTree → GoTree × List Nat
  | [], .node nm a its =>
    (.node nm a (its ++ [NewTree name attrs]), [its.length])
  | i :: rest, .node nm a its =>
    match its.get? i with
    | none => (.node nm a its, i :: rest)
    | some c =>
      let r := addAt name attrs rest c
      (.node nm a (its.set i r.1), i :: r.2)

/-- Embeds `tree.Add` in the state-passing view: `root` is the whole tree,
`h` the handle of the receiver; the new child is appended to the receiver
and its handle is returned. -/
def GoTree.Add (root : GoTree) (h : List Nat) (name : String)
    (attrs : Option (List (String × String))) : GoTree × List Nat :=
  addAt name attrs h root

/-- Embeds `FakeSysfs.AddTree`: start at the root and fold `Add` over the
path segments, each step moving the cursor to the freshly added child. -/
def AddTree (root : GoTree) (entries : List String) : GoTree × List Nat :=
  entries.foldl (fun pos e => GoTree.Add pos.1 pos.2 e none) (root, [])

/-- Modelled from the spec: the chained-call construction
`root.Add(e1, nil).Add(e2, nil). ... .Add(en, nil)`, each `Add` applied to
the handle returned by the previous one. -/
def chainedAdd (root : GoTree) (h : List Nat) : List String → GoTree × List Nat
  | [] => (root, h)
  | e :: es =>
    let r := GoTree.Add root h e none
    chainedAdd r.1 r.2 es

/-- Boolean success test on an `Except` value. -/
def exceptOk {ε α : Type} : Except ε α → Bool
  | .ok _ => true
  | .error _ => false

/-- The VF count as the spec describes it: the integer content of the
`sriov_numvfs` file, zero when the read or the parse fails. Stated from
the spec wording, to be compared with what `processEntry` records. -/
def numvfsVal (c : Option String) : Int :=
  match c with
  | none => 0
  | some s =>
    match atoi (trimSpace s) with
    | some v => v
    | none => 0

/-- Device fixture for the malformed `numa_node` machine: every required
file well-formed, `numa_node` holding non-numeric text. -/
def c1dev : DevDir :=
  { name := "0000:00:01.0"
    numvfsStat := .absent
    numvfsContent := none
    physfnStat := .absent
    physfnLink := none
    numaNodeContent := some "huh"
    classContent := some "0x0200"
    vendorContent := some "0x8086"
    deviceContent := some "0x10ca" }

/-- The device `NewPCIDevices` actually builds from `c1dev`: the parse
error on `numa_node` is dropped and the device lands on node `0`. -/
def c1resDev : SRIOVDeviceInfo :=
  { IsPhysFn := false
    NumVFS := 0
    IsVFn := false
    ParentFn := ""
    address := "0000:00:01.0"
    numaNode := 0
    devClass := 2
    vendor := 0x8086
    device := 0x10ca
    sysfsPath := "/fake/bus/pci/devices/0000:00:01.0" }

/-- The collection `NewPCIDevices` builds from the `c1dev` machine. -/
def c1result : PCIDevices := ⟨[c1resDev]⟩

/-- Node source with sparse online IDs {0, 2} and well-formed two-entry
distance vectors. -/
def ns2 : NodeSource :=
  { online := [0, 2]
    readDistanceFile := fun n =>
      if n = 0 then some "10 20" else if n = 2 then some "20 10" else none }

/-- The distances value `NewDistancesFromSysfs` builds from `ns2`. -/
def c2dist : Distances := ⟨[0, 2], [⟨[10, 20]⟩, ⟨[20, 10]⟩]⟩

/-- A `Distances` value whose online set {0, 5} is not aligned with the
positional `byNode` matrix. -/
def d3sparse : Distances := ⟨[0, 5], [⟨[10, 20]⟩, ⟨[20, 10]⟩]⟩

/-- A well-formed two-node `Distances` value. -/
def d3wf : Distances := ⟨[0, 1], [⟨[10, 20]⟩, ⟨[20, 10]⟩]⟩

/-- Node source whose node 0 distance file has one token instead of two. -/
def ns4 : NodeSource :=
  { online := [0, 1]
    readDistanceFile := fun n =>
      if n = 0 then some "10" else if n = 1 then some "10 20" else none }

/-- Node source for the {0, 1} fixture of the spec. -/
def ns5 : NodeSource :=
  { online := [0, 1]
    readDistanceFile := fun n =>
      if n = 0 then some "10 20" else if n = 1 then some "20 10" else none }

/-- The distances value built from the {0, 1} fixture. -/
def c5dist : Distances := ⟨[0, 1], [⟨[10, 20]⟩, ⟨[20, 10]⟩]⟩

/-- Physical-function fixture of the spec: `sriov_numvfs` present with
content `4`, `numa_node` content `-1`. -/
def c6dev : DevDir :=
  { name := "0000:00:02.0"
    numvfsStat := .present
    numvfsContent := some "4"
    physfnStat := .absent
    physfnLink := none
    numaNodeContent := some "-1"
    classContent := some "0x0200"
    vendorContent := some "0x8086"
    deviceContent := some "0x10ca" }

/-- Virtual-function fixture: `physfn` present, readlink succeeding. -/
def c7dev : DevDir :=
  { name := "0000:00:02.1"
    numvfsStat := .absent
    numvfsContent := none
    physfnStat := .present
    physfnLink := some "../0000:00:02.0"
    numaNodeContent := some "1"
    classContent := some "0x0200"
    vendorContent := some "0x8086"
    deviceContent := some "0x10ca" }

/-- Virtual-function fixture whose `physfn` readlink fails. -/
def c10dev : DevDir :=
  { name := "0000:00:03.1"
    numvfsStat := .absent
    numvfsContent := none
    physfnStat := .present
    physfnLink := none
    numaNodeContent := some "1"
    classContent := some "0x0200"
    vendorContent := some "0x8086"
    deviceContent := some "0x10ca" }

/-- The device built from `c6dev`. -/
def c6resDev : SRIOVDeviceInfo :=
  { IsPhysFn := true
    NumVFS := 4
    IsVFn := false
    ParentFn := ""
    address := "0000:00:02.0"
    numaNode := -1
    devClass := 2
    vendor := 0x8086
    device := 0x10ca
    sysfsPath := "/fake/bus/pci/devices/0000:00:02.0" }

/-- The device built from `c7dev`. -/
def c7resDev : SRIOVDeviceInfo :=
  { IsPhysFn := false
    NumVFS := 0
    IsVFn := true
    ParentFn := "0000:00:02.0"
    address := "0000:00:02.1"
    numaNode := 1
    devClass := 2
    vendor := 0x8086
    device := 0x10ca
    sysfsPath := "/fake/bus/pci/devices/0000:00:02.1" }

/-- The device built from `c10dev`. -/
def c10resDev : SRIOVDeviceInfo :=
  { IsPhysFn := false
    NumVFS := 0
    IsVFn := true
    ParentFn := ""
    address := "0000:00:03.1"
    numaNode := 1
    devClass := 2
    vendor := 0x8086
    device := 0x10ca
    sysfsPath := "/fake/bus/pci/devices/0000:00:03.1" }

/-- Device carrying only a NUMA node, for the grouping fixture. -/
def devOnNode (addr : String) (n : Int) : SRIOVDeviceInfo :=
  { IsPhysFn := false
    NumVFS := 0
    IsVFn := false
    ParentFn := ""
    address := addr
    numaNode := n
    devClass := 0
    vendor := 0
    device := 0
    sysfsPath := "" }

/-- Collection with NUMA nodes {0, 0, 1, -1} in discovery order. -/
def pd8 : PCIDevices :=
  ⟨[devOnNode "a" 0, devOnNode "b" 0, devOnNode "c" 1, devOnNode "d" (-1)]⟩

/-- The fixture root tree (`NewFakeSysfs` names it `"_"`). -/
def t9 : GoTree := NewTree "_" none

/-- A successful `Except` value is an `ok`. -/
theorem exceptOk_exists {ε α : Type} (e : Except ε α) (h : exceptOk e = true) :
    ∃ v, e = .ok v := by
  cases e with
  | ok v => exact ⟨v, rfl⟩
  | error q => exact absurd h (by simp [exceptOk])

/-- When `readInt` fails, the integer it hands back is `0`. -/
theorem readInt_failed_val (c : Option String) (h : ((readInt c).2).isSome = true) :
    (readInt c).1 = 0 := by
  cases c with
  | none => rfl
  | some s =>
    cases hx : atoi (trimSpace s) with
    | none => simp [readInt, hx]
    | some v => simp [readInt, hx] at h

/-- The integer `readInt` hands back is the parsed content, `0` on any
read or parse failure. -/
theorem readInt_val_eq (c : Option String) : (readInt c).1 = numvfsVal c := by
  cases c with
  | none => rfl
  | some s =>
    cases hx : atoi (trimSpace s) with
    | none => simp [readInt, numvfsVal, hx]
    | some v => simp [readInt, numvfsVal, hx]

/-- A `sriov_numvfs` stat that does not hard-fail yields some pair. -/
theorem numvfsFields_ok (d : DevDir) (h : d.numvfsStat ≠ .failed) :
    ∃ bk : Bool × Int, numvfsFields d.numvfsStat d.numvfsContent = .ok bk := by
  cases hs : d.numvfsStat with
  | present => exact ⟨(true, (readInt d.numvfsContent).1), rfl⟩
  | absent => exact ⟨(false, 0), rfl⟩
  | failed => exact absurd hs h

/-- A `physfn` stat that does not hard-fail yields some pair. -/
theorem physfnFields_ok (d : DevDir) (h : d.physfnStat ≠ .failed) :
    ∃ bs : Bool × String, physfnFields d.physfnStat d.physfnLink = .ok bs := by
  cases hs : d.physfnStat with
  | present =>
    exact ⟨(true, match d.physfnLink with
                  | some dest => filepathBase dest
                  | none => ""), rfl⟩
  | absent => exact ⟨(false, ""), rfl⟩
  | failed => exact absurd hs h

/-- Success shape of one `NewPCIDevices` loop iteration: with both stat
branches and the three required reads resolved, the built device is fully
determined, its NUMA node being whatever integer `readInt` handed back. -/
theorem processEntry_ok (p : String) (d : DevDir) (b1 : Bool) (k1 : Int)
    (b2 : Bool) (s2 : String) (c v dv : Int)
    (h1 : numvfsFields d.numvfsStat d.numvfsContent = .ok (b1, k1))
    (h2 : physfnFields d.physfnStat d.physfnLink = .ok (b2, s2))
    (hc : readHexInt64 d.classContent = .ok c)
    (hv : readHexInt64 d.vendorContent = .ok v)
    (hd : readHexInt64 d.deviceContent = .ok dv) :
    processEntry p d = .ok
      { IsPhysFn := b1
        NumVFS := k1
        IsVFn := b2
        ParentFn := s2
        address := d.name
        numaNode := (readInt d.numaNodeContent).1
        devClass := Int.fdiv c 256
        vendor := v
        device := dv
        sysfsPath := joinPath p d.name } := by
  simp only [processEntry, h1, h2, hc, hv, hd]

/-- A one-entry listing whose entry processes successfully yields the
one-device collection. -/
theorem newPCIDevices_single (p : String) (d : DevDir) (dev : SRIOVDeviceInfo)
    (h : processEntry (joinPath p PathBusPCIDevices) d = .ok dev) :
    NewPCIDevices p (some [d]) = .ok ⟨[dev]⟩ := by
  simp only [NewPCIDevices, List.mapM, List.mapM.loop, h]
  rfl

/-- Claim C1 (counterexample): on a machine whose single device has the
unparseable `numa_node` content `"huh"` and well-formed required files,
`NewPCIDevices` does not return the parse error: it returns a collection,
the device sitting on node `0`. -/
theorem c1_counterexample :
    ((readInt c1dev.numaNodeContent).2).isSome = true
    ∧ NewPCIDevices "/fake" (some [c1dev]) = .ok c1result :=
  ⟨rfl, rfl⟩

/-- Claim C1 (amended): a `numa_node` content that is not a parseable
integer does not abort discovery. The error `readInt` reports is bound to
a variable that is overwritten before any check, so given well-formed
required files the device is built, its NUMA node being `0` (the integer
`readInt` hands back with the error), and single-device discovery returns
the collection. -/
theorem c1_numa_parse_error_ignored (p : String) (d : DevDir)
    (h1 : d.numvfsStat ≠ .failed) (h2 : d.physfnStat ≠ .failed)
    (hc : exceptOk (readHexInt64 d.classContent) = true)
    (hv : exceptOk (readHexInt64 d.vendorContent) = true)
    (hd : exceptOk (readHexInt64 d.deviceContent) = true)
    (hbad : ((readInt d.numaNodeContent).2).isSome = true) :
    exceptOk (processEntry (joinPath p PathBusPCIDevices) d) = true
    ∧ ∀ dev, processEntry (joinPath p PathBusPCIDevices) d = .ok dev →
        dev.numaNode = 0 ∧ NewPCIDevices p (some [d]) = .ok ⟨[dev]⟩ := by
  obtain ⟨bk, h1'⟩ := numvfsFields_ok d h1
  obtain ⟨bs, h2'⟩ := physfnFields_ok d h2
  obtain ⟨c, hc'⟩ := exceptOk_exists _ hc
  obtain ⟨v, hv'⟩ := exceptOk_exists _ hv
  obtain ⟨dv, hd'⟩ := exceptOk_exists _ hd
  have hpe := processEntry_ok (joinPath p PathBusPCIDevices) d bk.1 bk.2 bs.1 bs.2
    c v dv h1' h2' hc' hv' hd'
  constructor
  · rw [hpe]; rfl
  · intro dev hdev
    rw [hpe] at hdev
    have hde := Except.ok.inj hdev
    constructor
    · rw [← hde]
      exact readInt_failed_val d.numaNodeContent hbad
    · rw [← hde]
      exact newPCIDevices_single p d _ hpe

/-- Claim C1 (witness): the amended statement evaluated on the concrete
`c1dev` machine. -/
theorem c1_witness :
    exceptOk (processEntry (joinPath "/fake" PathBusPCIDevices) c1dev) = true
    ∧ c1resDev.numaNode = 0
    ∧ NewPCIDevices "/fake" (some [c1dev]) = .ok ⟨[c1resDev]⟩ := by
  have h := c1_numa_parse_error_ignored "/fake" c1dev (by decide) (by decide) rfl rfl rfl rfl
  exact ⟨h.1, (h.2 c1resDev rfl).1, (h.2 c1resDev rfl).2⟩

/-- Claim C6: on a device directory whose required files are well-formed,
if `sriov_numvfs` is present the device is a physical function and its
`NumVFS` is the file's integer content with any read or parse failure
tolerated as `0`, never aborting discovery; if absent, the device is not a
physical function and `NumVFS` is `0`. -/
theorem c6_sriov_numvfs_tolerated (p : String) (d : DevDir)
    (h1 : d.numvfsStat ≠ .failed) (h2 : d.physfnStat ≠ .failed)
    (hc : exceptOk (readHexInt64 d.classContent) = true)
    (hv : exceptOk (readHexInt64 d.vendorContent) = true)
    (hd : exceptOk (readHexInt64 d.deviceContent) = true) :
    exceptOk (processEntry (joinPath p PathBusPCIDevices) d) = true
    ∧ ∀ dev, processEntry (joinPath p PathBusPCIDevices) d = .ok dev →
        NewPCIDevices p (some [d]) = .ok ⟨[dev]⟩
        ∧ (d.numvfsStat = .present →
            dev.IsPhysFn = true ∧ dev.NumVFS = numvfsVal d.numvfsContent)
        ∧ (d.numvfsStat = .absent →
            dev.IsPhysFn = false ∧ dev.NumVFS = 0) := by
  obtain ⟨bk, h1'⟩ := numvfsFields_ok d h1
  obtain ⟨bs, h2'⟩ := physfnFields_ok d h2
  obtain ⟨c, hc'⟩ := exceptOk_exists _ hc
  obtain ⟨v, hv'⟩ := exceptOk_exists _ hv
  obtain ⟨dv, hd'⟩ := exceptOk_exists _ hd
  have hpe := processEntry_ok (joinPath p PathBusPCIDevices) d bk.1 bk.2 bs.1 bs.2
    c v dv h1' h2' hc' hv' hd'
  constructor
  · rw [hpe]; rfl
  · intro dev hdev
    rw [hpe] at hdev
    have hde := Except.ok.inj hdev
    refine ⟨?_, ?_, ?_⟩
    · rw [← hde]
      exact newPCIDevices_single p d _ hpe
    · intro hp
      rw [hp] at h1'
      have hbk := Except.ok.inj h1'
      rw [← hde, ← hbk]
      exact ⟨rfl, readInt_val_eq d.numvfsContent⟩
    · intro hp
      rw [hp] at h1'
      have hbk := Except.ok.inj h1'
      rw [← hde, ← hbk]
      exact ⟨rfl, rfl⟩

/-- Claim C6 (witness): a physical function with `sriov_numvfs` content
`4` and `numa_node` content `-1` is discovered with `IsPhysFn = true`,
`NumVFS = 4`, `NUMANode = -1`. -/
theorem c6_witness :
    processEntry (joinPath "/fake" PathBusPCIDevices) c6dev = .ok c6resDev
    ∧ NewPCIDevices "/fake" (some [c6dev]) = .ok ⟨[c6resDev]⟩
    ∧ c6resDev.IsPhysFn = true ∧ c6resDev.NumVFS = 4 ∧ c6resDev.numaNode = -1 := by
  have h := c6_sriov_numvfs_tolerated "/fake" c6dev (by decide) (by decide) rfl rfl rfl
  have hpe : processEntry (joinPath "/fake" PathBusPCIDevices) c6dev = .ok c6resDev := rfl
  have h2 := h.2 c6resDev hpe
  exact ⟨hpe, h2.1, (h2.2.1 rfl).1, (h2.2.1 rfl).2, rfl⟩

/-- Claim C7: a device directory whose `physfn` entry stats successfully
and whose link target reads as `dest` is discovered as a virtual function
whose `ParentFn` is exactly the final path segment of `dest`, discovery
succeeding when the required files are well-formed. -/
theorem c7_physfn_parent (p : String) (d : DevDir) (dest : String)
    (h1 : d.numvfsStat ≠ .failed)
    (hc : exceptOk (readHexInt64 d.classContent) = true)
    (hv : exceptOk (readHexInt64 d.vendorContent) = true)
    (hd : exceptOk (readHexInt64 d.deviceContent) = true)
    (hstat : d.physfnStat = .present) (hlink : d.physfnLink = some dest) :
    exceptOk (processEntry (joinPath p PathBusPCIDevices) d) = true
    ∧ ∀ dev, processEntry (joinPath p PathBusPCIDevices) d = .ok dev →
        dev.IsVFn = true ∧ dev.ParentFn = filepathBase dest
        ∧ NewPCIDevices p (some [d]) = .ok ⟨[dev]⟩ := by
  obtain ⟨bk, h1'⟩ := numvfsFields_ok d h1
  have h2' : physfnFields d.physfnStat d.physfnLink = .ok (true, filepathBase dest) := by
    rw [hstat, hlink]
    rfl
  obtain ⟨c, hc'⟩ := exceptOk_exists _ hc
  obtain ⟨v, hv'⟩ := exceptOk_exists _ hv
  obtain ⟨dv, hd'⟩ := exceptOk_exists _ hd
  have hpe := processEntry_ok (joinPath p PathBusPCIDevices) d bk.1 bk.2
    true (filepathBase dest) c v dv h1' h2' hc' hv' hd'
  constructor
  · rw [hpe]; rfl
  · intro dev hdev
    rw [hpe] at hdev
    have hde := Except.ok.inj hdev
    rw [← hde]
    exact ⟨rfl, rfl, newPCIDevices_single p d _ hpe⟩

/-- Claim C7 (witness): a `physfn` link targeting `../0000:00:02.0` gives
`ParentFn = "0000:00:02.0"` exactly. -/
theorem c7_witness :
    processEntry (joinPath "/fake" PathBusPCIDevices) c7dev = .ok c7resDev
    ∧ c7resDev.IsVFn = true ∧ c7resDev.ParentFn = "0000:00:02.0"
    ∧ NewPCIDevices "/fake" (some [c7dev]) = .ok ⟨[c7resDev]⟩ := by
  have h := c7_physfn_parent "/fake" c7dev "../0000:00:02.0" (by decide) rfl rfl rfl rfl rfl
  have hpe : processEntry (joinPath "/fake" PathBusPCIDevices) c7dev = .ok c7resDev := rfl
  have h2 := h.2 c7resDev hpe
  exact ⟨hpe, h2.1, h2.2.1, h2.2.2⟩

/-- Claim C10: a device directory whose `physfn` entry stats successfully
but whose readlink fails is still discovered (required files being
well-formed), reported as a virtual function with `ParentFn` the empty
string: the link-read failure is silently swallowed. -/
theorem c10_physfn_readlink_swallowed (p : String) (d : DevDir)
    (h1 : d.numvfsStat ≠ .failed)
    (hc : exceptOk (readHexInt64 d.classContent) = true)
    (hv : exceptOk (readHexInt64 d.vendorContent) = true)
    (hd : exceptOk (readHexInt64 d.deviceContent) = true)
    (hstat : d.physfnStat = .present) (hlink : d.physfnLink = none) :
    exceptOk (processEntry (joinPath p PathBusPCIDevices) d) = true
    ∧ ∀ dev, processEntry (joinPath p PathBusPCIDevices) d = .ok dev →
        dev.IsVFn = true ∧ dev.ParentFn = ""
        ∧ NewPCIDevices p (some [d]) = .ok ⟨[dev]⟩ := by
  obtain ⟨bk, h1'⟩ := numvfsFields_ok d h1
  have h2' : physfnFields d.physfnStat d.physfnLink = .ok (true, "") := by
    rw [hstat, hlink]
    rfl
  obtain ⟨c, hc'⟩ := exceptOk_exists _ hc
  obtain ⟨v, hv'⟩ := exceptOk_exists _ hv
  obtain ⟨dv, hd'⟩ := exceptOk_exists _ hd
  have hpe := processEntry_ok (joinPath p PathBusPCIDevices) d bk.1 bk.2
    true "" c v dv h1' h2' hc' hv' hd'
  constructor
  · rw [hpe]; rfl
  · intro dev hdev
    rw [hpe] at hdev
    have hde := Except.ok.inj hdev
    rw [← hde]
    exact ⟨rfl, rfl, newPCIDevices_single p d _ hpe⟩

/-- Claim C10 (witness): the unreadable-link device `c10dev` is
discovered as a VF with empty `ParentFn`. -/
theorem c10_witness :
    processEntry (joinPath "/fake" PathBusPCIDevices) c10dev = .ok c10resDev
    ∧ c10resDev.IsVFn = true ∧ c10resDev.ParentFn = ""
    ∧ NewPCIDevices "/fake" (some [c10dev]) = .ok ⟨[c10resDev]⟩ := by
  have h := c10_physfn_readlink_swallowed "/fake" c10dev (by decide) rfl rfl rfl rfl rfl
  have hpe : processEntry (joinPath "/fake" PathBusPCIDevices) c10dev = .ok c10resDev := rfl
  have h2 := h.2 c10resDev hpe
  exact ⟨hpe, h2.1, h2.2.1, h2.2.2⟩

/-- Claim C2 (code evaluated at the failing input): with the sparse
online-ID set {0, 2} and well-formed two-entry distance files,
construction succeeds, both `2` and `0` are members of the online set,
yet `BetweenNodes 2 0` hits an out-of-range index on `byNode` — the
embedded panic (`none`), neither a stored distance nor an error value. -/
theorem c2_sparse_node_ids_panic :
    NewDistancesFromSysfs ns2 = .ok c2dist
    ∧ 2 ∈ c2dist.onlineNodes ∧ 0 ∈ c2dist.onlineNodes
    ∧ c2dist.BetweenNodes 2 0 = none := by
  refine ⟨rfl, ?_, ?_, rfl⟩
  · decide
  · decide

/-- Claim C3 (counterexample): a `Distances` value whose online set
{0, 5} is not aligned with its 2x2 matrix has both `5` and `0` online,
yet `BetweenNodes 5 0` is the embedded panic, not the stored value
without error that the claim promises for member IDs. -/
theorem c3_counterexample :
    (5 : Int) ∈ d3sparse.onlineNodes ∧ (0 : Int) ∈ d3sparse.onlineNodes
    ∧ d3sparse.BetweenNodes 5 0 = none := by
  refine ⟨?_, ?_, rfl⟩
  · decide
  · decide

/-- Claim C3 (amended): `BetweenNodes` returns an error value exactly when
`from` or `to` is not a member of the online set; when both are members
and the matrix actually holds an entry at `[from][to]` (the indexing that
the code performs without bounds recomputation), it returns that stored
value without error — so an unknown-ID query never yields a zero or
default distance. -/
theorem c3_between_nodes (d : Distances) (a b : Int) :
    (resIsError (d.BetweenNodes a b) = true ↔ (a ∉ d.onlineNodes ∨ b ∉ d.onlineNodes))
    ∧ (∀ (row : nodeDistances) (v : Int),
        idxGet d.byNode a = some row → idxGet row.values b = some v →
        a ∈ d.onlineNodes → b ∈ d.onlineNodes →
        d.BetweenNodes a b = some (.ok v)) := by
  constructor
  · constructor
    · intro h
      by_contra hcon
      push_neg at hcon
      obtain ⟨ha, hb⟩ := hcon
      simp only [Distances.BetweenNodes, if_pos ha, if_pos hb] at h
      cases hr : idxGet d.byNode a with
      | none => simp [hr, resIsError] at h
      | some nd =>
        cases hv : idxGet nd.values b with
        | none => simp [hr, hv, resIsError] at h
        | some v => simp [hr, hv, resIsError] at h
    · intro h
      by_cases ha : a ∈ d.onlineNodes
      · have hb : b ∉ d.onlineNodes := by
          rcases h with h | h
          · exact absurd ha h
          · exact h
        simp [Distances.BetweenNodes, ha, hb, resIsError]
      · simp [Distances.BetweenNodes, ha, resIsError]
  · intro row v hrow hv ha hb
    simp [Distances.BetweenNodes, ha, hb, hrow, hv]

/-- Claim C3 (witness): on the well-formed two-node value, a query with
the unknown ID `5` is an error, and the member query `(0, 1)` returns the
stored `20`. -/
theorem c3_witness :
    resIsError (d3wf.BetweenNodes 5 0) = true
    ∧ d3wf.BetweenNodes 0 1 = some (.ok 20) := by
  constructor
  · exact (c3_between_nodes d3wf 5 0).1.mpr (Or.inl (by decide))
  · exact (c3_between_nodes d3wf 0 1).2 ⟨[10, 20]⟩ 20 rfl rfl (by decide) (by decide)

/-- A distance vector accepted by `nodeDistancesFromString` had exactly
the expected token count. -/
theorem nds_ok_count (n : Nat) (data : String) (nd : nodeDistances)
    (h : nodeDistancesFromString n data = .ok nd) :
    (splitOnSpace data).length = n := by
  by_contra hl
  simp only [nodeDistancesFromString] at h
  rw [if_pos hl] at h
  exact Except.noConfusion h

/-- If the per-node loop of `NewDistancesFromSysfs` succeeds, every node
it visited had a readable distance file with exactly the expected token
count. -/
theorem distLoop_ok_count (n : Nat) (rf : Int → Option String) :
    ∀ (nodes : List Int) (acc d : Distances), distLoop n rf nodes acc = .ok d →
      ∀ i ∈ nodes, ∀ data, rf i = some data → (splitOnSpace data).length = n := by
  intro nodes
  induction nodes with
  | nil =>
    intro acc d h i hi
    exact absurd hi (List.not_mem_nil i)
  | cons x rest ih =>
    intro acc d h i hi data hdata
    simp only [distLoop] at h
    cases hx : rf x with
    | none => simp [hx] at h
    | some data0 =>
      simp only [hx] at h
      cases hnd : nodeDistancesFromString n data0 with
      | error e => simp [hnd] at h
      | ok nd =>
        simp only [hnd] at h
        rcases List.mem_cons.mp hi with hix | hir
        · subst hix
          rw [hx] at hdata
          injection hdata with hq
          subst hq
          exact nds_ok_count n data0 nd hnd
        · exact ih _ _ h i hir data hdata

/-- Claim C4: when some online node's readable distance file splits into a
token count different from the online-node count, the vector parser
reports the found and expected counts, and `NewDistancesFromSysfs` never
returns a `Distances` value for that machine. -/
theorem c4_count_mismatch (ns : NodeSource) (i : Int) (data : String)
    (hi : i ∈ ns.online) (hread : ns.readDistanceFile i = some data)
    (hcount : (splitOnSpace data).length ≠ ns.online.length) :
    nodeDistancesFromString ns.online.length data =
      .error (.countMismatch (splitOnSpace data).length ns.online.length)
    ∧ ∀ d, NewDistancesFromSysfs ns ≠ .ok d := by
  constructor
  · simp only [nodeDistancesFromString]
    rw [if_pos hcount]
  · intro d h
    exact hcount (distLoop_ok_count ns.online.length ns.readDistanceFile
      ns.online ⟨[], []⟩ d h i hi data hread)

/-- Claim C4 (witness): on the fixture whose node 0 file holds one token
instead of two, the parser reports counts 1 and 2 and construction fails
(in particular it does not yield any value, such as the empty one). -/
theorem c4_witness :
    nodeDistancesFromString ns4.online.length "10" = .error (.countMismatch 1 2)
    ∧ NewDistancesFromSysfs ns4 ≠ .ok ⟨[], []⟩ := by
  have h := c4_count_mismatch ns4 0 "10" (by decide) rfl (by decide)
  exact ⟨h.1, h.2 ⟨[], []⟩⟩

/-- Claim C5: on every fixture with online nodes {0, 1}, node 0's distance
file reading "10 20" and node 1's "20 10", construction succeeds and both
cross queries return 20. -/
theorem c5_fixture (rf : Int → Option String)
    (h0 : rf 0 = some "10 20") (h1 : rf 1 = some "20 10") :
    NewDistancesFromSysfs ⟨[0, 1], rf⟩ = .ok c5dist
    ∧ c5dist.BetweenNodes 0 1 = some (.ok 20)
    ∧ c5dist.BetweenNodes 1 0 = some (.ok 20) := by
  refine ⟨?_, rfl, rfl⟩
  have hnd0 : nodeDistancesFromString 2 "10 20" = .ok ⟨[10, 20]⟩ := rfl
  have hnd1 : nodeDistancesFromString 2 "20 10" = .ok ⟨[20, 10]⟩ := rfl
  show distLoop 2 rf [0, 1] ⟨[], []⟩ = .ok c5dist
  simp only [distLoop, h0, h1, hnd0, hnd1]
  rfl

/-- Claim C5 (witness): the fixture realized as a concrete read map. -/
theorem c5_witness :
    NewDistancesFromSysfs ns5 = .ok c5dist
    ∧ c5dist.BetweenNodes 0 1 = some (.ok 20)
    ∧ c5dist.BetweenNodes 1 0 = some (.ok 20) := by
  have h := c5_fixture ns5.readDistanceFile rfl rfl
  exact ⟨h.1, h.2.1, h.2.2⟩

/-- Unrolling of the `PerNUMA` fold: the group of node `n` is whatever the
accumulator already holds followed by the matching devices in order. -/
theorem perNUMA_fold (items : List SRIOVDeviceInfo) :
    ∀ (m : Int → List SRIOVDeviceInfo) (n : Int),
      (items.foldl
        (fun m devInfo =>
          fun k => if k = devInfo.numaNode then m k ++ [devInfo] else m k) m) n
        = m n ++ items.filter (fun dv => dv.numaNode == n) := by
  induction items with
  | nil =>
    intro m n
    simp
  | cons dv rest ih =>
    intro m n
    simp only [List.foldl_cons, List.filter_cons]
    rw [ih]
    by_cases h : dv.numaNode = n
    · subst h
      simp [List.append_assoc]
    · have h2 : ¬(n = dv.numaNode) := fun q => h q.symm
      simp [h, h2]

/-- Claim C8: `PerNUMA` maps every NUMA node ID, the sentinel `-1`
included, to exactly the sub-list of devices whose node equals that ID in
original discovery order; on the {0, 0, 1, -1} fixture the group sizes
are 2, 1 and 1. -/
theorem c8_pernuma :
    (∀ (pd : PCIDevices) (n : Int),
        pd.PerNUMA n = pd.Items.filter (fun dv => dv.numaNode == n))
    ∧ (pd8.PerNUMA 0).length = 2
    ∧ (pd8.PerNUMA 1).length = 1
    ∧ (pd8.PerNUMA (-1)).length = 1 := by
  refine ⟨?_, rfl, rfl, rfl⟩
  intro pd n
  have h := perNUMA_fold pd.Items (fun _ => []) n
  rw [List.nil_append] at h
  exact h

/-- Claim C8 (witness): the general grouping law evaluated on the
{0, 0, 1, -1} fixture, with its concrete group sizes. -/
theorem c8_witness :
    pd8.PerNUMA 0 = pd8.Items.filter (fun dv => dv.numaNode == 0)
    ∧ (pd8.PerNUMA 0).length = 2 ∧ (pd8.PerNUMA (-1)).length = 1 :=
  ⟨c8_pernuma.1 pd8 0, c8_pernuma.2.1, c8_pernuma.2.2.2⟩

/-- Folding `Add` over the segments is the chained-call construction. -/
theorem addTree_foldl (es : List String) :
    ∀ (root : GoTree) (h : List Nat),
      es.foldl (fun pos e => GoTree.Add pos.1 pos.2 e none) (root, h)
        = chainedAdd root h es := by
  induction es with
  | nil =>
    intro root h
    rfl
  | cons e rest ih =>
    intro root h
    simp only [List.foldl_cons, chainedAdd]
    exact ih _ _

/-- Claim C9: `AddTree(e1, ..., en)` produces the same tree state and
returns the same handle as the chained calls
`root.Add(e1, nil).Add(e2, nil). ... .Add(en, nil)`. -/
theorem c9_addtree (root : GoTree) (entries : List String) :
    AddTree root entries = chainedAdd root [] entries :=
  addTree_foldl entries root []
